import Mathlib

/-!
Verification of the forecast aggregation and unit-normalization pipeline of
the weather dashboard (`src/MiniProject.py`).

The pipeline in the source is:
  raw API items  →  truncate to `forecast_days * 8`  →  per-item unit
  normalization  →  DataFrame  →  alert scan  →  group-by-date aggregation.

Numeric values (temperatures, humidity, wind speed, coordinates) are modelled
as rationals; the Python source performs exact arithmetic expressions on them
(`temp * 9/5 + 32`, sums divided by counts, `(lat1+lat2)/2`) with no rounding,
so `ℚ` is the faithful exact model of those expressions.
Timestamps are seconds (`Nat`); taking the calendar-date component of a
timestamp (`datetime.fromtimestamp(dt).date` at line 119/202) is modelled as
division by 86400 (seconds per day); the grouping logic below never depends on
the particular date formula, only on equality of date keys.
-/

/-- The sidebar temperature-unit radio button: `"Celsius (°C)"` or
`"Fahrenheit (°F)"` (line 82). -/
inductive TUnit
  | celsius
  | fahrenheit
deriving DecidableEq

/-- One raw 3-hour forecast sample as delivered by the upstream feed
(`item` of `data['list']`): timestamp `dt`, temperature in Celsius,
humidity, wind speed, weather description, icon code (lines 113-125). -/
structure ForecastItem where
  dt : Nat
  temp : ℚ
  humidity : ℚ
  wind : ℚ
  description : String
  icon : String
deriving DecidableEq

/-- Unit normalization (lines 114-116): `temp = (temp * 9/5) + 32` when the
selected unit is Fahrenheit, otherwise the value passes through unchanged. -/
def normalizeTemp (u : TUnit) (t : ℚ) : ℚ :=
  match u with
  | .fahrenheit => t * 9 / 5 + 32
  | .celsius => t

/-- One row of `forecast_df` (lines 118-125): the calendar date of the
timestamp, the normalized temperature, humidity, wind speed, description. -/
structure NRow where
  date : Nat
  temp : ℚ
  humidity : ℚ
  wind : ℚ
  desc : String
deriving DecidableEq

/-- Building one row of `forecast_data` from a raw item (lines 113-125),
including the `Date` column added at line 202. -/
def normalizePoint (u : TUnit) (it : ForecastItem) : NRow :=
  { date := it.dt / 86400
    temp := normalizeTemp u it.temp
    humidity := it.humidity
    wind := it.wind
    desc := it.description }

/-- Lines 110-127: `forecast_list = data['list'][:forecast_days * 8]`
followed by the normalization loop that builds `forecast_df`. -/
def forecastRows (u : TUnit) (items : List ForecastItem) (days : Nat) : List NRow :=
  (items.take (days * 8)).map (normalizePoint u)

/-- `Series.min` on a non-empty column; the `[]` case is never reached by the
grouped aggregation because every date bucket is non-empty. -/
def listMin : List ℚ → ℚ
  | [] => 0
  | a :: as => as.foldl min a

/-- `Series.max` on a non-empty column. -/
def listMax : List ℚ → ℚ
  | [] => 0
  | a :: as => as.foldl max a

/-- `Series.mean`: the sum of the column divided by its length. -/
def listMean (l : List ℚ) : ℚ :=
  l.sum / (l.length : ℚ)

/-- The number of occurrences of `s` in `l`: the count that
`x.value_counts()` assigns to the string `s`. -/
def countOcc (s : String) (l : List String) : Nat :=
  (l.filter (fun t => t = s)).length

/-- The index of the first occurrence of `s` in `l` (the length of `l` when
`s` is absent): used to state the first-appearance tie-break. -/
def firstPos {α : Type} [DecidableEq α] (s : α) : List α → Nat
  | [] => 0
  | t :: ts => if t = s then 0 else firstPos s ts + 1

/-- `x.value_counts().index[0]` (line 207): the most frequent string of the
bucket; `value_counts` orders tied counts by first appearance, so the fold
replaces the current best only on a strictly larger count, keeping the
earliest-occurring string among those tied for the maximum. -/
def modalDesc (l : List String) : String :=
  match l with
  | [] => ""
  | c :: cs => cs.foldl (fun best d => if countOcc d l > countOcc best l then d else best) c

/-- The rows of one `groupby('Date')` bucket (line 203). -/
def bucket (rows : List NRow) (d : Nat) : List NRow :=
  rows.filter (fun r => r.date = d)

/-- One aggregated day (lines 203-210): date, mean/min/max temperature,
mean humidity, mean wind speed, modal description. -/
structure DailyAggregate where
  date : Nat
  tempAvg : ℚ
  tempMin : ℚ
  tempMax : ℚ
  humidity : ℚ
  wind : ℚ
  description : String
deriving DecidableEq

/-- The aggregation applied to one date bucket (lines 203-208). -/
def mkAggregate (rows : List NRow) (d : Nat) : DailyAggregate :=
  let b := bucket rows d
  { date := d
    tempAvg := listMean (b.map NRow.temp)
    tempMin := listMin (b.map NRow.temp)
    tempMax := listMax (b.map NRow.temp)
    humidity := listMean (b.map NRow.humidity)
    wind := listMean (b.map NRow.wind)
    description := modalDesc (b.map NRow.desc) }

/-- The group keys of `groupby('Date')`: the distinct dates of the rows in
ascending order (pandas sorts group keys by default). -/
def groupKeys (rows : List NRow) : List Nat :=
  (List.insertionSort (· ≤ ·) (rows.map NRow.date)).dedup

/-- `daily_forecast` (lines 202-210): one `DailyAggregate` per distinct date,
in ascending date order. -/
def daily_forecast (rows : List NRow) : List DailyAggregate :=
  (groupKeys rows).map (mkAggregate rows)

/-- Line 143. -/
def windAlertMsg : String :=
  "⚠ High wind alert: Wind speed exceeds 10 m/s in forecast!"

/-- The unit-specific heat threshold of line 145: `35 if Celsius else 95`. -/
def heatThresholdNat (u : TUnit) : Nat :=
  match u with
  | .celsius => 35
  | .fahrenheit => 95

/-- The heat threshold as a rational, for comparison with temperatures. -/
def heatThreshold (u : TUnit) : ℚ :=
  (heatThresholdNat u : ℚ)

/-- Line 146. -/
def heatAlertMsg (u : TUnit) : String :=
  "🔥 Extreme heat warning: Temperatures above " ++ toString (heatThresholdNat u) ++ "° expected!"

/-- The alert scan (lines 139-146) on a `forecast_df` that has its columns:
wind alert when the maximum wind speed strictly exceeds 10, then heat alert
when the maximum normalized temperature strictly exceeds the unit threshold. -/
def alerts (rows : List NRow) (u : TUnit) : List String :=
  (if listMax (rows.map NRow.wind) > 10 then [windAlertMsg] else [])
    ++ (if listMax (rows.map NRow.temp) > heatThreshold u then [heatAlertMsg u] else [])

/-- The tab-1 pass from `forecast_df` construction through alerts and
`daily_forecast` (lines 110-210).  When `forecast_data` is the empty list,
`pd.DataFrame([])` has no columns at all, so the very first column access
`forecast_df["Wind Speed (m/s)"]` at line 142 raises `KeyError`; the pass is
modelled as failing with that error in the empty case. -/
def forecastPass (u : TUnit) (items : List ForecastItem) (days : Nat) :
    Except String (List String × List DailyAggregate) :=
  let rows := forecastRows u items days
  if rows.isEmpty then
    .error "KeyError: Wind Speed (m/s)"
  else
    .ok (alerts rows u, daily_forecast rows)

/-- An upstream HTTP response: status code and decoded JSON body. -/
structure HttpResp (α : Type) where
  status : Nat
  body : α
deriving DecidableEq

/-- One entry of the geocoding payload. -/
structure GeoEntry where
  lat : ℚ
  lon : ℚ
deriving DecidableEq

/-- The fields of a current-weather payload used by `get_city_data`. -/
structure WeatherBody where
  temp : ℚ
  humidity : ℚ
  description : String
  icon : String
deriving DecidableEq

/-- `get_city_coordinates` (lines 31-45): the Python function returns the
triple `(lat, lon, error)`.  A network-level exception is modelled as the
`Except.error` side of the response argument. -/
def get_city_coordinates (resp : Except String (HttpResp (List GeoEntry))) :
    Option ℚ × Option ℚ × Option String :=
  match resp with
  | .error e => (none, none, some ("Connection error: " ++ e))
  | .ok r =>
    if r.status = 200 then
      match r.body with
      | g :: _ => (some g.lat, some g.lon, none)
      | [] => (none, none, some "City not found.")
    else
      (none, none, some ("API Error: " ++ toString r.status))

/-- One city's record in the comparison table (lines 414-423).  The
population is `none` for the `"Data not available"` sentinel. -/
structure CityRecord where
  city : String
  lat : ℚ
  lon : ℚ
  population : Option Nat
  temperature : ℚ
  humidity : ℚ
  conditions : String
  icon : String
deriving DecidableEq

/-- `get_city_data` (lines 385-423): `None` when the geocoding call is
non-200 or returns an empty list, or when the weather call is non-200;
otherwise the composed record. -/
def get_city_data (name : String) (geo : HttpResp (List GeoEntry))
    (weather : HttpResp WeatherBody) (pop : Option Nat) : Option CityRecord :=
  if geo.status ≠ 200 then none
  else
    match geo.body with
    | [] => none
    | g :: _ =>
      if weather.status ≠ 200 then none
      else
        some { city := name
               lat := g.lat
               lon := g.lon
               population := pop
               temperature := weather.body.temp
               humidity := weather.body.humidity
               conditions := weather.body.description
               icon := weather.body.icon }

/-- The composed two-city comparison, including the map-centering midpoint
(lines 441-442): componentwise arithmetic average of the coordinates. -/
structure ComparisonSet where
  first : CityRecord
  second : CityRecord
  midLat : ℚ
  midLon : ℚ
deriving DecidableEq

/-- Lines 432-442: the comparison structure and its midpoint. -/
def mkComparisonSet (d1 d2 : CityRecord) : ComparisonSet :=
  { first := d1
    second := d2
    midLat := (d1.lat + d2.lat) / 2
    midLon := (d1.lon + d2.lon) / 2 }

/-- Lines 425-442: `if not data1 or not data2:` show a single aggregate
error, else compose the comparison. -/
def compareCities (d1 d2 : Option CityRecord) : Except String ComparisonSet :=
  match d1, d2 with
  | some r1, some r2 => .ok (mkComparisonSet r1 r2)
  | _, _ => .error "⚠️ Could not fetch data for one or both cities. Please check the city names."


/-! ### Concrete example inputs used to instantiate the verified properties -/

/-- A single normalized row on one day. -/
def exRow : NRow :=
  { date := 0, temp := 20, humidity := 50, wind := 5, desc := "clear" }

/-- A one-point forecast: its single date bucket is a singleton. -/
def exRows : List NRow :=
  [exRow]

/-- One day whose descriptions are `["clear", "clear", "rain", "rain"]`:
two strings tied for the maximal count. -/
def exRowsTie : List NRow :=
  [{ date := 0, temp := 20, humidity := 50, wind := 5, desc := "clear" },
   { date := 0, temp := 21, humidity := 50, wind := 5, desc := "clear" },
   { date := 0, temp := 22, humidity := 50, wind := 5, desc := "rain" },
   { date := 0, temp := 23, humidity := 50, wind := 5, desc := "rain" }]

/-- 24 raw samples spaced 3 hours apart starting at epoch 0: 8 samples on
each of 3 consecutive days. -/
def exItemsC3 : List ForecastItem :=
  (List.range 24).map fun i =>
    { dt := i * 10800, temp := 20, humidity := 50, wind := 5,
      description := "clear", icon := "01d" }

/-- Wind speeds `[3, 5, 12]` on one day. -/
def wEx1 : List NRow :=
  [{ date := 0, temp := 20, humidity := 50, wind := 3, desc := "clear" },
   { date := 0, temp := 20, humidity := 50, wind := 5, desc := "clear" },
   { date := 0, temp := 20, humidity := 50, wind := 12, desc := "clear" }]

/-- Wind speeds `[3, 5, 9]` on one day. -/
def wEx2 : List NRow :=
  [{ date := 0, temp := 20, humidity := 50, wind := 3, desc := "clear" },
   { date := 0, temp := 20, humidity := 50, wind := 5, desc := "clear" },
   { date := 0, temp := 20, humidity := 50, wind := 9, desc := "clear" }]

/-- A single point at 36 degrees Celsius. -/
def hEx1 : List NRow :=
  [{ date := 0, temp := 36, humidity := 50, wind := 3, desc := "clear" }]

/-- A single point at the Fahrenheit equivalent of 36 degrees Celsius. -/
def hEx2 : List NRow :=
  [{ date := 0, temp := normalizeTemp TUnit.fahrenheit 36, humidity := 50, wind := 3,
     desc := "clear" }]

/-- A single point at 34 degrees Celsius. -/
def hEx3 : List NRow :=
  [{ date := 0, temp := 34, humidity := 50, wind := 3, desc := "clear" }]

/-- A concrete successfully fetched city record. -/
def exCity : CityRecord :=
  { city := "Cape Town", lat := -34, lon := 18, population := some 4618000,
    temperature := 18, humidity := 60, conditions := "clear sky", icon := "01d" }

/-! ### Helper lemmas: folded min / max -/

theorem foldl_min_le (as : List ℚ) (a : ℚ) : ∀ x ∈ a :: as, as.foldl min a ≤ x := by
  induction as generalizing a with
  | nil =>
    intro x hx
    simp only [List.mem_singleton] at hx
    simp [hx]
  | cons b bs ih =>
    intro x hx
    have h := ih (min a b)
    simp only [List.foldl_cons]
    rcases List.mem_cons.mp hx with rfl | hx
    · exact le_trans (h _ (List.mem_cons_self _ _)) (min_le_left _ _)
    rcases List.mem_cons.mp hx with rfl | hx
    · exact le_trans (h _ (List.mem_cons_self _ _)) (min_le_right _ _)
    · exact h x (List.mem_cons_of_mem _ hx)

theorem le_foldl_max (as : List ℚ) (a : ℚ) : ∀ x ∈ a :: as, x ≤ as.foldl max a := by
  induction as generalizing a with
  | nil =>
    intro x hx
    simp only [List.mem_singleton] at hx
    simp [hx]
  | cons b bs ih =>
    intro x hx
    have h := ih (max a b)
    simp only [List.foldl_cons]
    rcases List.mem_cons.mp hx with rfl | hx
    · exact le_trans (le_max_left _ _) (h _ (List.mem_cons_self _ _))
    rcases List.mem_cons.mp hx with rfl | hx
    · exact le_trans (le_max_right _ _) (h _ (List.mem_cons_self _ _))
    · exact h x (List.mem_cons_of_mem _ hx)

theorem foldl_max_mem (as : List ℚ) (a : ℚ) : as.foldl max a ∈ a :: as := by
  induction as generalizing a with
  | nil => simp
  | cons b bs ih =>
    simp only [List.foldl_cons]
    rcases max_choice a b with hab | hab <;> rw [hab]
    · rcases List.mem_cons.mp (ih a) with h | h
      · simp [h]
      · exact List.mem_cons_of_mem _ (List.mem_cons_of_mem _ h)
    · rcases List.mem_cons.mp (ih b) with h | h
      · simp [h]
      · exact List.mem_cons_of_mem _ (List.mem_cons_of_mem _ h)

theorem listMin_le (l : List ℚ) (x : ℚ) (hx : x ∈ l) : listMin l ≤ x := by
  cases l with
  | nil => cases hx
  | cons a as => exact foldl_min_le as a x hx

theorem le_listMax (l : List ℚ) (x : ℚ) (hx : x ∈ l) : x ≤ listMax l := by
  cases l with
  | nil => cases hx
  | cons a as => exact le_foldl_max as a x hx

theorem listMax_mem (l : List ℚ) (h : l ≠ []) : listMax l ∈ l := by
  cases l with
  | nil => exact absurd rfl h
  | cons a as => exact foldl_max_mem as a

theorem listMax_gt_iff (l : List ℚ) (c : ℚ) (h : l ≠ []) :
    listMax l > c ↔ ∃ x ∈ l, x > c := by
  constructor
  · intro hgt
    exact ⟨listMax l, listMax_mem l h, hgt⟩
  · rintro ⟨x, hx, hxc⟩
    exact lt_of_lt_of_le hxc (le_listMax l x hx)

/-! ### Helper lemmas: the mean lies between min and max -/

theorem mul_length_le_sum (l : List ℚ) (c : ℚ) (hc : ∀ x ∈ l, c ≤ x) :
    c * (l.length : ℚ) ≤ l.sum := by
  induction l with
  | nil => simp
  | cons a as ih =>
    have ha := hc a (List.mem_cons_self _ _)
    have has := ih fun x hx => hc x (List.mem_cons_of_mem _ hx)
    simp only [List.length_cons, List.sum_cons]
    push_cast
    nlinarith

theorem sum_le_mul_length (l : List ℚ) (c : ℚ) (hc : ∀ x ∈ l, x ≤ c) :
    l.sum ≤ c * (l.length : ℚ) := by
  induction l with
  | nil => simp
  | cons a as ih =>
    have ha := hc a (List.mem_cons_self _ _)
    have has := ih fun x hx => hc x (List.mem_cons_of_mem _ hx)
    simp only [List.length_cons, List.sum_cons]
    push_cast
    nlinarith

theorem length_pos_cast (l : List ℚ) (h : l ≠ []) : (0 : ℚ) < (l.length : ℚ) := by
  have : 0 < l.length := List.length_pos.mpr h
  exact_mod_cast this

theorem listMin_le_listMean (l : List ℚ) (h : l ≠ []) : listMin l ≤ listMean l := by
  have hlen := length_pos_cast l h
  have hsum := mul_length_le_sum l (listMin l) (fun x hx => listMin_le l x hx)
  rw [listMean, le_div_iff₀ hlen]
  exact hsum

theorem listMean_le_listMax (l : List ℚ) (h : l ≠ []) : listMean l ≤ listMax l := by
  have hlen := length_pos_cast l h
  have hsum := sum_le_mul_length l (listMax l) (fun x hx => le_listMax l x hx)
  rw [listMean, div_le_iff₀ hlen]
  exact hsum

theorem listMean_singleton (t : ℚ) : listMean [t] = t := by
  simp [listMean]

/-! ### Helper lemmas: the count-maximizing fold of `modalDesc` -/

theorem foldl_pick_max {α : Type} (g : α → ℕ) :
    ∀ (cs : List α) (c : α), ∀ x ∈ c :: cs,
      g x ≤ g (cs.foldl (fun best d => if g d > g best then d else best) c) := by
  intro cs
  induction cs with
  | nil =>
    intro c x hx
    simp only [List.mem_singleton] at hx
    simp [hx]
  | cons d ds ih =>
    intro c x hx
    simp only [List.foldl_cons]
    have hc : g c ≤ g (if g d > g c then d else c) := by
      split <;> omega
    have hd : g d ≤ g (if g d > g c then d else c) := by
      split <;> omega
    have hstep := ih (if g d > g c then d else c)
    rcases List.mem_cons.mp hx with rfl | hx
    · exact le_trans hc (hstep _ (List.mem_cons_self _ _))
    rcases List.mem_cons.mp hx with rfl | hx
    · exact le_trans hd (hstep _ (List.mem_cons_self _ _))
    · exact hstep x (List.mem_cons_of_mem _ hx)

theorem foldl_pick_split {α : Type} (g : α → ℕ) :
    ∀ (cs : List α) (c : α), ∃ l1 l2,
      c :: cs = l1 ++ (cs.foldl (fun best d => if g d > g best then d else best) c) :: l2 ∧
      ∀ x ∈ l1, g x < g (cs.foldl (fun best d => if g d > g best then d else best) c) := by
  intro cs
  induction cs with
  | nil =>
    intro c
    exact ⟨[], [], rfl, by simp⟩
  | cons d ds ih =>
    intro c
    simp only [List.foldl_cons]
    by_cases hdc : g d > g c
    · -- the head is replaced by `d`
      simp only [if_pos hdc]
      obtain ⟨l1, l2, heq, hlt⟩ := ih d
      refine ⟨c :: l1, l2, ?_, ?_⟩
      · simpa using congrArg (c :: ·) heq
      · intro x hx
        have hm : g d ≤ g (List.foldl (fun best d => if g d > g best then d else best) d ds) :=
          foldl_pick_max g ds d d (List.mem_cons_self _ _)
        rcases List.mem_cons.mp hx with rfl | hx
        · omega
        · exact hlt x hx
    · -- the head `c` survives this step
      simp only [if_neg hdc]
      obtain ⟨l1, l2, heq, hlt⟩ := ih c
      cases l1 with
      | nil =>
        simp only [List.nil_append] at heq
        injection heq with h1 h2
        refine ⟨[], d :: ds, ?_, by simp⟩
        simp only [List.nil_append]
        rw [← h1]
      | cons e l1' =>
        rw [List.cons_append] at heq
        injection heq with h1 h2
        subst h1
        refine ⟨c :: d :: l1', l2, ?_, ?_⟩
        · rw [List.cons_append, List.cons_append, ← h2]
        · intro x hx
          have hcm := hlt c (List.mem_cons_self _ _)
          rcases List.mem_cons.mp hx with rfl | hx
          · exact hcm
          rcases List.mem_cons.mp hx with rfl | hx
          · omega
          · exact hlt x (List.mem_cons_of_mem _ hx)

theorem firstPos_left_le {α : Type} [DecidableEq α] (m : α) (l1 l2 : List α) :
    firstPos m (l1 ++ m :: l2) ≤ l1.length := by
  induction l1 with
  | nil => simp [firstPos]
  | cons t ts ih =>
    simp only [List.cons_append, firstPos, List.length_cons, List.append_eq]
    split
    · omega
    · omega

theorem firstPos_right_gt {α : Type} [DecidableEq α] (m s : α) (l2 : List α) (hsm : s ≠ m) :
    ∀ l1 : List α, s ∉ l1 → l1.length < firstPos s (l1 ++ m :: l2) := by
  intro l1
  induction l1 with
  | nil =>
    intro _
    simp only [List.nil_append, List.length_nil, firstPos]
    rw [if_neg (Ne.symm hsm)]
    omega
  | cons t ts ih =>
    intro hs1
    have ht : ¬t = s := fun he => hs1 (by rw [he]; exact List.mem_cons_self _ _)
    simp only [List.cons_append, List.length_cons, firstPos, List.append_eq]
    rw [if_neg ht]
    have := ih fun hmem => hs1 (List.mem_cons_of_mem _ hmem)
    omega

theorem foldl_pick_mem {α : Type} (g : α → ℕ) (cs : List α) (c : α) :
    (cs.foldl (fun best d => if g d > g best then d else best) c) ∈ c :: cs := by
  obtain ⟨l1, l2, heq, _⟩ := foldl_pick_split g cs c
  rw [heq]
  exact List.mem_append_right _ (List.mem_cons_self _ _)

theorem foldl_pick_earliest {α : Type} [DecidableEq α] (g : α → ℕ) (cs : List α) (c s : α)
    (hcount : g s = g (cs.foldl (fun best d => if g d > g best then d else best) c)) :
    firstPos (cs.foldl (fun best d => if g d > g best then d else best) c) (c :: cs) ≤
      firstPos s (c :: cs) := by
  obtain ⟨l1, l2, heq, hlt⟩ := foldl_pick_split g cs c
  by_cases hsm : s = cs.foldl (fun best d => if g d > g best then d else best) c
  · cases hsm
    exact le_refl _
  · have hs1 : s ∉ l1 := fun hmem => by have := hlt s hmem; omega
    rw [heq]
    exact le_trans (firstPos_left_le _ l1 l2)
      (le_of_lt (firstPos_right_gt _ s l2 hsm l1 hs1))

/-- Full characterization of `modalDesc` on a non-empty bucket: it is an
element of the bucket of maximal occurrence count, and among the strings tied
for the maximal count its first occurrence comes earliest. -/
theorem modalDesc_spec (L : List String) (h : L ≠ []) :
    modalDesc L ∈ L ∧
    (∀ s ∈ L, countOcc s L ≤ countOcc (modalDesc L) L) ∧
    (∀ s ∈ L, countOcc s L = countOcc (modalDesc L) L →
      firstPos (modalDesc L) L ≤ firstPos s L) := by
  cases L with
  | nil => exact absurd rfl h
  | cons c cs =>
    refine ⟨?_, ?_, ?_⟩
    · exact foldl_pick_mem (fun s => countOcc s (c :: cs)) cs c
    · intro s hs
      exact foldl_pick_max (fun s => countOcc s (c :: cs)) cs c s hs
    · intro s _ hcount
      exact foldl_pick_earliest (fun s => countOcc s (c :: cs)) cs c s hcount

/-! ### Helper lemmas: the group keys of `daily_forecast` -/

theorem groupKeys_sorted (rows : List NRow) : (groupKeys rows).Pairwise (· < ·) := by
  have hs : (List.insertionSort (· ≤ ·) (rows.map NRow.date)).Pairwise (· ≤ ·) :=
    List.sorted_insertionSort (· ≤ ·) (rows.map NRow.date)
  have hle : (groupKeys rows).Pairwise (· ≤ ·) :=
    hs.sublist (List.dedup_sublist _)
  have hne : (groupKeys rows).Pairwise (· ≠ ·) := List.nodup_dedup _
  exact (hle.and hne).imp fun hab => lt_of_le_of_ne hab.1 hab.2

theorem mem_groupKeys (rows : List NRow) (d : Nat) :
    d ∈ groupKeys rows ↔ d ∈ rows.map NRow.date := by
  rw [groupKeys, List.mem_dedup]
  exact (List.perm_insertionSort (· ≤ ·) (rows.map NRow.date)).mem_iff

theorem daily_forecast_map_date (rows : List NRow) :
    (daily_forecast rows).map DailyAggregate.date = groupKeys rows := by
  rw [daily_forecast, List.map_map]
  exact List.map_id _

theorem bucket_ne_nil (rows : List NRow) (d : Nat) (hd : d ∈ groupKeys rows) :
    bucket rows d ≠ [] := by
  rw [mem_groupKeys] at hd
  obtain ⟨r, hr, hrd⟩ := List.mem_map.mp hd
  have : r ∈ bucket rows d := by
    rw [bucket, List.mem_filter]
    exact ⟨hr, by simp [hrd]⟩
  exact List.ne_nil_of_mem this

theorem mem_daily_forecast (rows : List NRow) (a : DailyAggregate)
    (ha : a ∈ daily_forecast rows) :
    ∃ d, d ∈ groupKeys rows ∧ a = mkAggregate rows d ∧ a.date = d := by
  obtain ⟨d, hd, rfl⟩ := List.mem_map.mp ha
  exact ⟨d, hd, rfl, rfl⟩

/-! ### Helper lemmas: counting alert messages -/

theorem countOcc_append (s : String) (l1 l2 : List String) :
    countOcc s (l1 ++ l2) = countOcc s l1 + countOcc s l2 := by
  simp [countOcc, List.filter_append]

theorem countOcc_single_self (s : String) : countOcc s [s] = 1 := by
  simp [countOcc]

theorem countOcc_single_ne (s t : String) (h : t ≠ s) : countOcc s [t] = 0 := by
  simp [countOcc, h]

theorem heat_ne_wind (u : TUnit) : heatAlertMsg u ≠ windAlertMsg := by
  cases u <;> decide

theorem countOcc_alerts_wind (rows : List NRow) (u : TUnit) :
    countOcc windAlertMsg (alerts rows u) =
      if listMax (rows.map NRow.wind) > 10 then 1 else 0 := by
  rw [alerts, countOcc_append]
  have hheat :
      countOcc windAlertMsg
        (if listMax (rows.map NRow.temp) > heatThreshold u then [heatAlertMsg u] else []) = 0 := by
    split
    · exact countOcc_single_ne _ _ (heat_ne_wind u)
    · rfl
  rw [hheat]
  split
  · rw [countOcc_single_self]
  · rfl

theorem wind_ne_heat (u : TUnit) : windAlertMsg ≠ heatAlertMsg u := by
  cases u <;> decide

theorem countOcc_alerts_heat (rows : List NRow) (u : TUnit) :
    countOcc (heatAlertMsg u) (alerts rows u) =
      if listMax (rows.map NRow.temp) > heatThreshold u then 1 else 0 := by
  rw [alerts, countOcc_append]
  have hwind :
      countOcc (heatAlertMsg u)
        (if listMax (rows.map NRow.wind) > 10 then [windAlertMsg] else []) = 0 := by
    split
    · exact countOcc_single_ne _ _ (wind_ne_heat u)
    · rfl
  rw [hwind]
  split
  · rw [countOcc_single_self]
  · rfl

/-! ### The claims -/

/-- C1: for every temperature value `C` (Celsius) the Unit Normalizer returns
`C * 9/5 + 32` when the target unit is Fahrenheit, and the value unchanged
(identity) when the target unit is Celsius, with no rounding at this stage;
the same holds for the temperature written into a normalized forecast row. -/
theorem C1_unit_normalizer (t : ℚ) (it : ForecastItem) :
    normalizeTemp TUnit.fahrenheit t = t * 9 / 5 + 32 ∧
    normalizeTemp TUnit.celsius t = t ∧
    (normalizePoint TUnit.fahrenheit it).temp = it.temp * 9 / 5 + 32 ∧
    (normalizePoint TUnit.celsius it).temp = it.temp :=
  ⟨rfl, rfl, rfl, rfl⟩

/-- C5 (code behavior at the claimed input): running the pass on an empty
point sequence does not yield an empty aggregate sequence — the
`pd.DataFrame([])` built from an empty record list has no columns, so the
column access at line 142 raises `KeyError` and the pass fails; only the
group-by step itself, given a framed empty column, would return no groups. -/
theorem C5_empty_input_key_error (u : TUnit) (days : Nat) :
    forecastPass u [] days = Except.error "KeyError: Wind Speed (m/s)" ∧
    daily_forecast [] = [] := by
  constructor
  · simp [forecastPass, forecastRows]
  · rfl

/-- C9: for every pair of successfully fetched city records the comparison
succeeds and its midpoint coordinate is the componentwise arithmetic average
of the two cities' coordinates. -/
theorem C9_midpoint_average (r1 r2 : CityRecord) :
    compareCities (some r1) (some r2) = Except.ok (mkComparisonSet r1 r2) ∧
    (mkComparisonSet r1 r2).midLat = (r1.lat + r2.lat) / 2 ∧
    (mkComparisonSet r1 r2).midLon = (r1.lon + r2.lon) / 2 :=
  ⟨rfl, rfl, rfl⟩

/-- C10: the Geocoder returns exactly one of two shapes — a coordinate pair
with no error, or `(None, None)` with an error message; never coordinates
together with an error and never neither. -/
theorem C10_geocoder_shape (resp : Except String (HttpResp (List GeoEntry))) :
    (∃ la lo, get_city_coordinates resp = (some la, some lo, none)) ∨
    (∃ m, get_city_coordinates resp = (none, none, some m)) := by
  cases resp with
  | error e => exact Or.inr ⟨"Connection error: " ++ e, rfl⟩
  | ok r =>
    simp only [get_city_coordinates]
    split
    · split
      · exact Or.inl ⟨_, _, rfl⟩
      · exact Or.inr ⟨_, rfl⟩
    · exact Or.inr ⟨_, rfl⟩

/-- C8: if either city's fetch failed (`get_city_data` returned nothing) the
Comparison Composer produces the single aggregate failure message and no
`ComparisonSet`; a one-sided comparison is never produced. -/
theorem C8_comparison_requires_both (d1 d2 : Option CityRecord)
    (h : d1 = none ∨ d2 = none) :
    compareCities d1 d2 =
      Except.error
        "⚠️ Could not fetch data for one or both cities. Please check the city names." := by
  rcases h with rfl | rfl
  · rfl
  · cases d1 <;> rfl

/-- Witness for C8: one failed city alongside one successful record yields
the aggregate failure. -/
theorem C8_comparison_requires_both_witness :
    compareCities none (some exCity) =
      Except.error
        "⚠️ Could not fetch data for one or both cities. Please check the city names." :=
  C8_comparison_requires_both none (some exCity) (Or.inl rfl)

/-- C2: every `DailyAggregate` emitted by `daily_forecast` satisfies
min ≤ mean ≤ max over its bucket's temperatures, and a singleton bucket
yields min = mean = max = that point's temperature. -/
theorem C2_daily_min_mean_max (rows : List NRow) (a : DailyAggregate)
    (ha : a ∈ daily_forecast rows) :
    (a.tempMin ≤ a.tempAvg ∧ a.tempAvg ≤ a.tempMax) ∧
    ∀ r : NRow, bucket rows a.date = [r] →
      a.tempMin = r.temp ∧ a.tempAvg = r.temp ∧ a.tempMax = r.temp := by
  obtain ⟨d, hd, rfl, -⟩ := mem_daily_forecast rows a ha
  have hb : bucket rows d ≠ [] := bucket_ne_nil rows d hd
  have hbt : (bucket rows d).map NRow.temp ≠ [] :=
    fun hcon => hb (List.map_eq_nil_iff.mp hcon)
  have h1 : (mkAggregate rows d).tempMin = listMin ((bucket rows d).map NRow.temp) := rfl
  have h2 : (mkAggregate rows d).tempAvg = listMean ((bucket rows d).map NRow.temp) := rfl
  have h3 : (mkAggregate rows d).tempMax = listMax ((bucket rows d).map NRow.temp) := rfl
  have hdate : (mkAggregate rows d).date = d := rfl
  refine ⟨⟨?_, ?_⟩, ?_⟩
  · rw [h1, h2]
    exact listMin_le_listMean _ hbt
  · rw [h2, h3]
    exact listMean_le_listMax _ hbt
  · intro r hr
    rw [hdate] at hr
    rw [h1, h2, h3, hr]
    exact ⟨rfl, listMean_singleton r.temp, rfl⟩

/-- Witness for C2: the one-point bucket of `exRows` gives
min = mean = max = 20. -/
theorem C2_daily_min_mean_max_witness :
    ((mkAggregate exRows 0).tempMin ≤ (mkAggregate exRows 0).tempAvg ∧
      (mkAggregate exRows 0).tempAvg ≤ (mkAggregate exRows 0).tempMax) ∧
    (mkAggregate exRows 0).tempMin = exRow.temp ∧
    (mkAggregate exRows 0).tempAvg = exRow.temp ∧
    (mkAggregate exRows 0).tempMax = exRow.temp := by
  have h := C2_daily_min_mean_max exRows (mkAggregate exRows 0)
    (by exact List.mem_singleton.mpr rfl)
  exact ⟨h.1, h.2 exRow rfl⟩

/-- C4: the modal description of every emitted `DailyAggregate` occurs in its
bucket, has maximal occurrence count there, ties are resolved in favor of the
earliest first occurrence, and the tied bucket
`["clear", "clear", "rain", "rain"]` yields `"clear"`. -/
theorem C4_modal_description (rows : List NRow) (a : DailyAggregate)
    (ha : a ∈ daily_forecast rows) :
    (a.description ∈ (bucket rows a.date).map NRow.desc ∧
      (∀ s ∈ (bucket rows a.date).map NRow.desc,
        countOcc s ((bucket rows a.date).map NRow.desc) ≤
          countOcc a.description ((bucket rows a.date).map NRow.desc)) ∧
      (∀ s ∈ (bucket rows a.date).map NRow.desc,
        countOcc s ((bucket rows a.date).map NRow.desc) =
            countOcc a.description ((bucket rows a.date).map NRow.desc) →
          firstPos a.description ((bucket rows a.date).map NRow.desc) ≤
            firstPos s ((bucket rows a.date).map NRow.desc))) ∧
    modalDesc ["clear", "clear", "rain", "rain"] = "clear" := by
  obtain ⟨d, hd, rfl, -⟩ := mem_daily_forecast rows a ha
  have hb : (bucket rows d).map NRow.desc ≠ [] :=
    fun hcon => (bucket_ne_nil rows d hd) (List.map_eq_nil_iff.mp hcon)
  have hdesc : (mkAggregate rows d).description =
      modalDesc ((bucket rows d).map NRow.desc) := rfl
  have hdate : (mkAggregate rows d).date = d := rfl
  have hspec := modalDesc_spec ((bucket rows d).map NRow.desc) hb
  rw [hdate, hdesc]
  exact ⟨hspec, by decide⟩

/-- Witness for C4: on the tied bucket `["clear", "clear", "rain", "rain"]`
the chosen description beats `"rain"` on the first-occurrence tie-break. -/
theorem C4_modal_description_witness :
    (mkAggregate exRowsTie 0).description ∈ (bucket exRowsTie 0).map NRow.desc ∧
    countOcc "rain" ((bucket exRowsTie 0).map NRow.desc) ≤
      countOcc (mkAggregate exRowsTie 0).description ((bucket exRowsTie 0).map NRow.desc) ∧
    firstPos (mkAggregate exRowsTie 0).description ((bucket exRowsTie 0).map NRow.desc) ≤
      firstPos "rain" ((bucket exRowsTie 0).map NRow.desc) ∧
    modalDesc ["clear", "clear", "rain", "rain"] = "clear" := by
  have h := C4_modal_description exRowsTie (mkAggregate exRowsTie 0)
    (by exact List.mem_singleton.mpr rfl)
  exact ⟨h.1.1, h.1.2.1 "rain" (by decide), h.1.2.2 "rain" (by decide) (by decide), h.2⟩

/-- C6: exactly one wind alert is emitted iff some point's wind speed
strictly exceeds 10 m/s; wind speeds `[3, 5, 12]` produce exactly one wind
alert and `[3, 5, 9]` produce none. -/
theorem C6_wind_alert (rows : List NRow) (u : TUnit) (h : rows ≠ []) :
    (countOcc windAlertMsg (alerts rows u) = 1 ↔ ∃ r ∈ rows, r.wind > 10) ∧
    countOcc windAlertMsg (alerts wEx1 TUnit.celsius) = 1 ∧
    countOcc windAlertMsg (alerts wEx2 TUnit.celsius) = 0 := by
  refine ⟨?_, by decide, by decide⟩
  have hmap : rows.map NRow.wind ≠ [] := fun hcon => h (List.map_eq_nil_iff.mp hcon)
  rw [countOcc_alerts_wind]
  constructor
  · intro h1
    by_cases hc : listMax (rows.map NRow.wind) > 10
    · obtain ⟨x, hx, hx10⟩ := (listMax_gt_iff _ _ hmap).mp hc
      obtain ⟨r, hr, rfl⟩ := List.mem_map.mp hx
      exact ⟨r, hr, hx10⟩
    · rw [if_neg hc] at h1
      exact absurd h1 (by omega)
  · rintro ⟨r, hr, hw⟩
    have hc : listMax (rows.map NRow.wind) > 10 :=
      (listMax_gt_iff _ _ hmap).mpr ⟨r.wind, List.mem_map_of_mem _ hr, hw⟩
    rw [if_pos hc]

/-- Witness for C6: both concrete examples, obtained from the theorem at the
non-empty input `wEx1`. -/
theorem C6_wind_alert_witness :
    countOcc windAlertMsg (alerts wEx1 TUnit.celsius) = 1 ∧
    countOcc windAlertMsg (alerts wEx2 TUnit.celsius) = 0 :=
  (C6_wind_alert wEx1 TUnit.celsius (by decide)).2

/-- C7: exactly one heat alert is emitted iff some point's normalized
temperature strictly exceeds the unit-specific threshold (35 in Celsius,
95 in Fahrenheit); 36 °C fires it under Celsius mode, the equivalent
96.8 °F fires it under Fahrenheit mode, 34 °C does not fire. -/
theorem C7_heat_alert (rows : List NRow) (u : TUnit) (h : rows ≠ []) :
    (countOcc (heatAlertMsg u) (alerts rows u) = 1 ↔
      ∃ r ∈ rows, r.temp > heatThreshold u) ∧
    heatThreshold TUnit.celsius = 35 ∧
    heatThreshold TUnit.fahrenheit = 95 ∧
    normalizeTemp TUnit.fahrenheit 36 = 484 / 5 ∧
    countOcc (heatAlertMsg TUnit.celsius) (alerts hEx1 TUnit.celsius) = 1 ∧
    countOcc (heatAlertMsg TUnit.fahrenheit) (alerts hEx2 TUnit.fahrenheit) = 1 ∧
    countOcc (heatAlertMsg TUnit.celsius) (alerts hEx3 TUnit.celsius) = 0 := by
  refine ⟨?main, by norm_num [heatThreshold, heatThresholdNat],
    by norm_num [heatThreshold, heatThresholdNat],
    by norm_num [normalizeTemp], by decide, ?hex2, by decide⟩
  case hex2 =>
    have hgt : listMax (hEx2.map NRow.temp) > heatThreshold TUnit.fahrenheit := by
      norm_num [hEx2, listMax, normalizeTemp, heatThreshold, heatThresholdNat]
    rw [countOcc_alerts_heat, if_pos hgt]
  have hmap : rows.map NRow.temp ≠ [] := fun hcon => h (List.map_eq_nil_iff.mp hcon)
  rw [countOcc_alerts_heat]
  constructor
  · intro h1
    by_cases hc : listMax (rows.map NRow.temp) > heatThreshold u
    · obtain ⟨x, hx, hxc⟩ := (listMax_gt_iff _ _ hmap).mp hc
      obtain ⟨r, hr, rfl⟩ := List.mem_map.mp hx
      exact ⟨r, hr, hxc⟩
    · rw [if_neg hc] at h1
      exact absurd h1 (by omega)
  · rintro ⟨r, hr, ht⟩
    have hc : listMax (rows.map NRow.temp) > heatThreshold u :=
      (listMax_gt_iff _ _ hmap).mpr ⟨r.temp, List.mem_map_of_mem _ hr, ht⟩
    rw [if_pos hc]

/-- Witness for C7: the three concrete examples, obtained from the theorem
at the non-empty input `hEx1`. -/
theorem C7_heat_alert_witness :
    countOcc (heatAlertMsg TUnit.celsius) (alerts hEx1 TUnit.celsius) = 1 ∧
    countOcc (heatAlertMsg TUnit.fahrenheit) (alerts hEx2 TUnit.fahrenheit) = 1 ∧
    countOcc (heatAlertMsg TUnit.celsius) (alerts hEx3 TUnit.celsius) = 0 :=
  (C7_heat_alert hEx1 TUnit.celsius (by decide)).2.2.2.2

/-- C3: the aggregation operates on exactly the first `D*8` points (all of
them when fewer are available), emits one `DailyAggregate` per distinct
calendar date among those points, in ascending date order; and 24 points
evenly split over 3 consecutive days with `D = 2` yield exactly 2 entries. -/
theorem C3_aggregator_truncation (u : TUnit) (items : List ForecastItem) (days : Nat) :
    daily_forecast (forecastRows u items days) =
      daily_forecast (forecastRows u (items.take (days * 8)) days) ∧
    (items.length ≤ days * 8 → forecastRows u items days = items.map (normalizePoint u)) ∧
    ((daily_forecast (forecastRows u items days)).map DailyAggregate.date).Pairwise (· < ·) ∧
    (∀ d, d ∈ (daily_forecast (forecastRows u items days)).map DailyAggregate.date ↔
      d ∈ (forecastRows u items days).map NRow.date) ∧
    (daily_forecast (forecastRows u exItemsC3 2)).length = 2 := by
  refine ⟨?_, ?_, ?_, ?_, by cases u <;> decide⟩
  · simp only [forecastRows, List.take_take, min_self]
  · intro hlen
    rw [forecastRows, List.take_of_length_le hlen]
  · rw [daily_forecast_map_date]
    exact groupKeys_sorted _
  · intro d
    rw [daily_forecast_map_date, mem_groupKeys]

/-- Witness for C3: the truncation conjunct applied at a concrete input whose
length is below the cut, plus the concrete 24-point example. -/
theorem C3_aggregator_truncation_witness :
    forecastRows TUnit.celsius (exItemsC3.take 16) 2 =
      (exItemsC3.take 16).map (normalizePoint TUnit.celsius) ∧
    (daily_forecast (forecastRows TUnit.celsius exItemsC3 2)).length = 2 := by
  refine ⟨(C3_aggregator_truncation TUnit.celsius (exItemsC3.take 16) 2).2.1 (by decide),
    (C3_aggregator_truncation TUnit.celsius exItemsC3 2).2.2.2.2⟩
